import Mathlib

/-!
Shallow embedding of the sds011lib protocol engine (src/sds011lib/__init__.py
and src/sds011lib/_constants.py) and proofs about it.

Bytes objects are modelled as `List Nat` (each entry intended `< 256`); the
serial transport is modelled as a `SerialState` holding the list of chunks
that successive `ser.read(10)` calls will return, together with a log of the
transport operations performed (writes, reads, open/close).  Python
exceptions become an explicit `ReadErr` error type; functions that can raise
return `Except` values, and stateful reader methods return the (possibly
error) result paired with the final transport state.
-/

namespace Sds011

/-- Byte strings, one natural number per byte. -/
abbrev Bytes := List Nat

/-- Message head constant (`HEAD = b"\xaa"`). -/
def HEAD : Bytes := [0xAA]

/-- Message tail constant (`TAIL = b"\xab"`). -/
def TAIL : Bytes := [0xAB]

/-- Broadcast device id (`ALL_SENSOR_ID = b"\xff\xff"`). -/
def ALL_SENSOR_ID : Bytes := [0xFF, 0xFF]

/-- Submit type constant (`SUBMIT_TYPE = b"\xb4"`). -/
def SUBMIT_TYPE : Bytes := [0xB4]

/-- Response types for commands (`ResponseType` enum). -/
inductive ResponseType where
  | generalResponse
  | queryResponse
deriving DecidableEq

/-- Wire value of a response type. -/
def ResponseType.value : ResponseType → Bytes
  | .generalResponse => [0xC5]
  | .queryResponse => [0xC0]

/-- Possible commands for the device (`Command` enum). -/
inductive Command where
  | setReportingMode
  | query
  | setDeviceId
  | setSleep
  | setWorkingPeriod
  | checkFirmwareVersion
deriving DecidableEq

/-- Wire value of a command. -/
def Command.value : Command → Bytes
  | .setReportingMode => [0x02]
  | .query => [0x04]
  | .setDeviceId => [0x05]
  | .setSleep => [0x06]
  | .setWorkingPeriod => [0x08]
  | .checkFirmwareVersion => [0x07]

/-- Operation type for many commands (`OperationType` enum). -/
inductive OperationType where
  | query
  | setMode
deriving DecidableEq

/-- Wire value of an operation type. -/
def OperationType.value : OperationType → Bytes
  | .query => [0x00]
  | .setMode => [0x01]

/-- Reporting mode for the device (`ReportingMode` enum). -/
inductive ReportingMode where
  | active
  | querying
deriving DecidableEq

/-- Wire value of a reporting mode. -/
def ReportingMode.value : ReportingMode → Bytes
  | .active => [0x00]
  | .querying => [0x01]

/-- State of the device, either wake or sleep (`SleepState` enum). -/
inductive SleepState where
  | sleep
  | wake
deriving DecidableEq

/-- Wire value of a sleep state. -/
def SleepState.value : SleepState → Bytes
  | .sleep => [0x00]
  | .wake => [0x01]

/-- Exceptions of the library (`exceptions.py`), plus the `AttributeError`
and plain `Exception` raised by argument validation in `__init__.py`. -/
inductive ReadErr where
  | incompleteRead
  | incorrectWrapper
  | checksumFailed (expected actual : Nat)
  | incorrectCommand (expected actual : Bytes)
  | incorrectCommandCode (expected actual : Bytes)
  | missingResponse (iterationCount : Nat) (expectedCommand : Bytes)
  | attributeError
  | commandLengthError
deriving DecidableEq

/-- A raw read response object (`_RawReadResponse` dataclass). -/
structure RawReadResponse where
  head : Bytes
  cmd_id : Bytes
  payload : Bytes
  device_id : Bytes
  checksum : Nat
  tail : Bytes
  expected_command_code : Command
  expected_response_type : ResponseType
deriving DecidableEq

/-- Checksum for read data (`_calc_checksum`): sum of the bytes mod 256. -/
def calc_checksum (data : Bytes) : Nat := data.sum % 256

/-- Verification of a raw read response (`_verify_read_response`).  The
Python function raises the exception of the first failing check; here the
first failure is returned as `some e`, and `none` means the frame verified.
The Python `bytes([payload[0]])` is rendered as `payload.take 1` (identical
for the non-empty payloads produced by `parse_read_response`). -/
def verify_read_response (r : RawReadResponse) : Option ReadErr :=
  if r.head ≠ HEAD then some .incorrectWrapper
  else if r.tail ≠ TAIL then some .incorrectWrapper
  else if r.checksum ≠ calc_checksum r.payload then
    some (.checksumFailed r.checksum (calc_checksum r.payload))
  else if r.cmd_id ≠ r.expected_response_type.value then
    some (.incorrectCommand r.expected_response_type.value r.cmd_id)
  else if r.expected_response_type ≠ ResponseType.queryResponse ∧
      r.payload.take 1 ≠ r.expected_command_code.value then
    some (.incorrectCommandCode r.expected_command_code.value (r.payload.take 1))
  else none

/-- Raw response record built by `_parse_read_response` before validation.
Slices follow the source: `data[0:1]`, `data[1:2]`, `data[2:8]`, `data[6:8]`,
`data[8]`, `data[9:10]`. -/
def mk_raw (data : Bytes) (command_code : Command)
    (response_type : ResponseType) : RawReadResponse :=
  { head := data.take 1
    cmd_id := (data.drop 1).take 1
    payload := (data.drop 2).take 6
    device_id := (data.drop 6).take 2
    checksum := data.getD 8 0
    tail := data.drop 9
    expected_command_code := command_code
    expected_response_type := response_type }

/-- Parse bytes into a raw read response, validating as well
(`_parse_read_response`). -/
def parse_read_response (data : Bytes) (command_code : Command)
    (response_type : ResponseType) : Except ReadErr RawReadResponse :=
  if data.length ≠ 10 then .error .incompleteRead
  else
    match verify_read_response (mk_raw data command_code response_type) with
    | some e => .error e
    | none => .ok (mk_raw data command_code response_type)

/-- Typed query response (`QueryResponse{pm25, pm10, device_id}`).  The
Python float values are modelled exactly as rationals. -/
structure QueryResponse where
  pm25 : ℚ
  pm10 : ℚ
  device_id : Bytes
deriving DecidableEq

/-- Little-endian interpretation of a byte string
(`int.from_bytes(..., byteorder="little")`). -/
def from_bytes_le (b : Bytes) : Nat := b.foldr (fun d acc => d + 256 * acc) 0

/-- Parse a query read response (`_parse_query_response`). -/
def parse_query_response (data : Bytes) : Except ReadErr QueryResponse :=
  match parse_read_response data Command.query ResponseType.queryResponse with
  | .error e => .error e
  | .ok raw =>
    .ok { pm25 := (from_bytes_le (raw.payload.take 2) : ℚ) / 10
          pm10 := (from_bytes_le ((raw.payload.drop 2).take 2) : ℚ) / 10
          device_id := raw.device_id }

/-- Transport operations, recorded in order of execution. -/
inductive Event where
  | write (data : Bytes)
  | read (data : Bytes)
  | openPort
  | closePort
deriving DecidableEq

/-- Serial transport state: the chunks that successive `ser.read(10)` calls
will return, and the log of transport operations already performed. -/
structure SerialState where
  stream : List Bytes
  events : List Event
deriving DecidableEq

/-- Record a `ser.write(data)` call. -/
def ser_write (data : Bytes) (st : SerialState) : SerialState :=
  { st with events := st.events ++ [.write data] }

/-- Checksum for the data bytes of a command (`_cmd_checksum`); raises
`AttributeError` when the body is not exactly 15 bytes. -/
def cmd_checksum (data : Bytes) : Except ReadErr Nat :=
  if data.length ≠ 15 then .error .attributeError
  else .ok (data.sum % 256)

/-- The full 19-byte frame `_send_command` assembles for a 15-byte body. -/
def mk_full_command (cmd : Bytes) : Bytes :=
  HEAD ++ SUBMIT_TYPE ++ cmd ++ [cmd.sum % 256] ++ TAIL

/-- Send a command to the device (`SDS011Reader._send_command`): wrap the
body with head and submit-type constants, checksum and tail, check the
total length, and write it. -/
def send_command (cmd : Bytes) (st : SerialState) :
    Except ReadErr Unit × SerialState :=
  match cmd_checksum cmd with
  | .error e => (.error e, st)
  | .ok ck =>
    let full_command := HEAD ++ SUBMIT_TYPE ++ cmd ++ [ck] ++ TAIL
    if full_command.length ≠ 19 then (.error .commandLengthError, st)
    else (.ok (), ser_write full_command st)

/-- Exceptions caught by the `except` clause in `_read_until_response`
(`IncorrectCommandException, IncorrectCommandCodeException`). -/
def is_retryable : ReadErr → Bool
  | .incorrectCommand _ _ => true
  | .incorrectCommandCode _ _ => true
  | _ => false

/-- Loop body of `SDS011Reader._read_until_response`, recursing over the
pending chunks.  `loopCount` and the event log are threaded through; an
exhausted stream models `ser.read(10)` returning the empty byte string. -/
def read_until_go (cc : Command) (rt : ResponseType) (maxLoopCount : Nat) :
    Nat → List Event → List Bytes → Except ReadErr Bytes × SerialState
  | _, evs, [] => (.error .incompleteRead, ⟨[], evs ++ [.read []]⟩)
  | loopCount, evs, out :: rest =>
    if out = [] then (.error .incompleteRead, ⟨rest, evs ++ [.read out]⟩)
    else
      match parse_read_response out cc rt with
      | .ok _ => (.ok out, ⟨rest, evs ++ [.read out]⟩)
      | .error e =>
        if is_retryable e then
          if maxLoopCount ≤ loopCount then
            (.error (.missingResponse loopCount cc.value), ⟨rest, evs ++ [.read out]⟩)
          else read_until_go cc rt maxLoopCount (loopCount + 1) (evs ++ [.read out]) rest
        else (.error e, ⟨rest, evs ++ [.read out]⟩)

/-- Read frames until one verifies against the expectation
(`SDS011Reader._read_until_response`). -/
def read_until_response (cc : Command) (rt : ResponseType) (maxLoopCount : Nat)
    (st : SerialState) : Except ReadErr Bytes × SerialState :=
  read_until_go cc rt maxLoopCount 0 st.events st.stream

/-- Default of the `max_loop_count` constructor argument of `SDS011Reader`. -/
def default_max_loop_count : Nat := 30

/-- Submit a request for pollutant data (`SDS011Reader.request_data`). -/
def request_data (device_id : Bytes) (st : SerialState) :
    Except ReadErr Unit × SerialState :=
  send_command (Command.query.value ++ List.replicate 12 0 ++ device_id) st

/-- Submit a request for the current reporting mode
(`SDS011Reader.request_reporting_mode`). -/
def request_reporting_mode (device_id : Bytes) (st : SerialState) :
    Except ReadErr Unit × SerialState :=
  send_command (Command.setReportingMode.value ++ OperationType.query.value ++
    ReportingMode.active.value ++ List.replicate 10 0 ++ device_id) st

/-- Set the reporting mode (`SDS011Reader._set_reporting_mode`). -/
def set_reporting_mode (reporting_mode : ReportingMode) (device_id : Bytes)
    (st : SerialState) : Except ReadErr Unit × SerialState :=
  send_command (Command.setReportingMode.value ++ OperationType.setMode.value ++
    reporting_mode.value ++ List.replicate 10 0 ++ device_id) st

/-- Set the reporting mode to active (`SDS011Reader.set_active_mode`). -/
def set_active_mode (st : SerialState) : Except ReadErr Unit × SerialState :=
  set_reporting_mode ReportingMode.active ALL_SENSOR_ID st

/-- Set the reporting mode to querying (`SDS011Reader.set_query_mode`). -/
def set_query_mode (st : SerialState) : Except ReadErr Unit × SerialState :=
  set_reporting_mode ReportingMode.querying ALL_SENSOR_ID st

/-- Submit a request for the current sleep state
(`SDS011Reader.request_sleep_state`). -/
def request_sleep_state (device_id : Bytes) (st : SerialState) :
    Except ReadErr Unit × SerialState :=
  send_command (Command.setSleep.value ++ OperationType.query.value ++
    [0x00] ++ List.replicate 10 0 ++ device_id) st

/-- Set the sleep state (`SDS011Reader.set_sleep_state`). -/
def set_sleep_state (sleep_state : SleepState) (device_id : Bytes)
    (st : SerialState) : Except ReadErr Unit × SerialState :=
  send_command (Command.setSleep.value ++ OperationType.setMode.value ++
    sleep_state.value ++ List.replicate 10 0 ++ device_id) st

/-- Wake the device up (`SDS011Reader.wake`). -/
def wake (device_id : Bytes) (st : SerialState) :
    Except ReadErr Unit × SerialState :=
  set_sleep_state SleepState.wake device_id st

/-- Wake the device when the current mode is unknown
(`SDS011Reader.safe_wake`): send a wake command, then run
`_read_until_response` for the sleep command, catching only
`IncompleteReadException`. -/
def safe_wake (device_id : Bytes) (maxLoopCount : Nat) (st : SerialState) :
    Except ReadErr Unit × SerialState :=
  match wake device_id st with
  | (.error e, st1) => (.error e, st1)
  | (.ok _, st1) =>
    match read_until_response Command.setSleep ResponseType.generalResponse
        maxLoopCount st1 with
    | (.ok _, st2) => (.ok (), st2)
    | (.error .incompleteRead, st2) => (.ok (), st2)
    | (.error e, st2) => (.error e, st2)

/-- Set the device ID (`SDS011Reader.set_device_id`); both ids must be
exactly 2 bytes, checked before anything is written. -/
def set_device_id (device_id target_device_id : Bytes) (st : SerialState) :
    Except ReadErr Unit × SerialState :=
  if device_id.length ≠ 2 ∨ target_device_id.length ≠ 2 then
    (.error .attributeError, st)
  else
    send_command (Command.setDeviceId.value ++ List.replicate 10 0 ++
      device_id ++ target_device_id) st

/-- Submit a request for the current working period
(`SDS011Reader.request_working_period`). -/
def request_working_period (device_id : Bytes) (st : SerialState) :
    Except ReadErr Unit × SerialState :=
  send_command (Command.setWorkingPeriod.value ++ OperationType.query.value ++
    List.replicate 11 0 ++ device_id) st

/-- Set the working period (`SDS011Reader.set_working_period`); the value
must lie in 0..30, checked before anything is written. -/
def set_working_period (working_period : Int) (device_id : Bytes)
    (st : SerialState) : Except ReadErr Unit × SerialState :=
  if working_period < 0 ∨ working_period > 30 then (.error .attributeError, st)
  else
    send_command (Command.setWorkingPeriod.value ++ OperationType.setMode.value ++
      [working_period.toNat] ++ List.replicate 10 0 ++ device_id) st

/-- Submit a request for the firmware version
(`SDS011Reader.request_firmware_version`). -/
def request_firmware_version (device_id : Bytes) (st : SerialState) :
    Except ReadErr Unit × SerialState :=
  send_command (Command.checkFirmwareVersion.value ++ List.replicate 12 0 ++
    device_id) st

/-- Invariant of every frame `_send_command` writes: 19 bytes, head and
submit-type constants, tail constant, and the checksum byte at index 17 is
the sum of bytes 2 through 16 modulo 256. -/
def frame_invariant (f : Bytes) : Prop :=
  f.length = 19 ∧ f.take 2 = [0xAA, 0xB4] ∧ f.getD 18 0 = 0xAB ∧
    f.getD 17 0 = ((f.drop 2).take 15).sum % 256

/-- Query-response frame whose payload is the worked example of the spec,
`E5 10 BF 14 01 01` (checksum `0xCA`). -/
def example_query_frame : Bytes :=
  [0xAA, 0xC0, 0xE5, 0x10, 0xBF, 0x14, 0x01, 0x01, 0xCA, 0xAB]

/-- Well-formed general response to a SET_SLEEP set command. -/
def sleep_response_frame : Bytes :=
  [0xAA, 0xC5, 0x06, 0x01, 0x01, 0x00, 0xFF, 0xFF, 0x06, 0xAB]

/-- Frame whose stored checksum byte (3) disagrees with the payload sum (6). -/
def bad_checksum_frame : Bytes :=
  [0xAA, 0xC5, 0x01, 0x01, 0x01, 0x01, 0x01, 0x01, 0x03, 0xAB]

/-- Predicate picking the `ser.read` entries of an event log. -/
def is_read_event : Event → Bool
  | .read _ => true
  | _ => false

/-- Predicate picking the `ser.open` and `ser.close` entries of a log. -/
def is_open_close_event : Event → Bool
  | .openPort => true
  | .closePort => true
  | _ => false

/-! Helper lemmas. -/

lemma length_ten_eq {l : Bytes} (hl : l.length = 10) :
    ∃ b0 b1 b2 b3 b4 b5 b6 b7 b8 b9 : Nat,
      l = [b0, b1, b2, b3, b4, b5, b6, b7, b8, b9] := by
  rcases l with _ | ⟨b0, _ | ⟨b1, _ | ⟨b2, _ | ⟨b3, _ | ⟨b4, _ | ⟨b5, _ | ⟨b6,
      _ | ⟨b7, _ | ⟨b8, _ | ⟨b9, rest⟩⟩⟩⟩⟩⟩⟩⟩⟩⟩ <;>
    simp only [List.length_cons, List.length_nil] at hl <;> try omega
  have hr : rest = [] := List.length_eq_zero.mp (by omega)
  exact ⟨b0, b1, b2, b3, b4, b5, b6, b7, b8, b9, by rw [hr]⟩

lemma parse_ok_iff {data : Bytes} {cc : Command} {rt : ResponseType}
    {r : RawReadResponse} :
    parse_read_response data cc rt = .ok r ↔
      data.length = 10 ∧ r = mk_raw data cc rt ∧
        verify_read_response (mk_raw data cc rt) = none := by
  unfold parse_read_response
  by_cases hl : data.length = 10
  · rcases hv : verify_read_response (mk_raw data cc rt) with _ | e <;>
      simp [hl, hv, eq_comm]
  · simp [hl]

lemma parse_error_cases {data : Bytes} {cc : Command} {rt : ResponseType}
    {e : ReadErr} (h : parse_read_response data cc rt = .error e) :
    (data.length ≠ 10 ∧ e = .incompleteRead) ∨
      (data.length = 10 ∧ verify_read_response (mk_raw data cc rt) = some e) := by
  unfold parse_read_response at h
  by_cases hl : data.length = 10
  · rcases hv : verify_read_response (mk_raw data cc rt) with _ | e2 <;>
      rw [if_neg (by omega), hv] at h
    · exact absurd h (by simp)
    · simp only [Except.error.injEq] at h
      exact Or.inr ⟨hl, congrArg some h⟩
  · rw [if_pos hl] at h
    simp only [Except.error.injEq] at h
    exact Or.inl ⟨hl, h.symm⟩

lemma parse_error_length {data : Bytes} {cc : Command} {rt : ResponseType}
    {e : ReadErr} (h : parse_read_response data cc rt = .error e)
    (hne : e ≠ .incompleteRead) : data.length = 10 := by
  rcases parse_error_cases h with ⟨_, rfl⟩ | ⟨hl, _⟩
  · exact absurd rfl hne
  · exact hl

lemma verify_none_fields {r : RawReadResponse}
    (h : verify_read_response r = none) :
    r.head = HEAD ∧ r.tail = TAIL ∧ r.checksum = calc_checksum r.payload ∧
      r.cmd_id = r.expected_response_type.value := by
  unfold verify_read_response at h
  split_ifs at h with h1 h2 h3 h4 h5
  all_goals simp_all

@[simp]
lemma reporting_mode_value_length (m : ReportingMode) : m.value.length = 1 := by
  cases m <;> rfl

@[simp]
lemma sleep_state_value_length (s : SleepState) : s.value.length = 1 := by
  cases s <;> rfl

lemma send_command_eq (cmd : Bytes) (st : SerialState) (h : cmd.length = 15) :
    send_command cmd st = (.ok (), ser_write (mk_full_command cmd) st) := by
  unfold send_command cmd_checksum mk_full_command
  rw [if_neg (by omega)]
  simp [HEAD, SUBMIT_TYPE, TAIL, h]

lemma mk_full_command_invariant (cmd : Bytes) (h : cmd.length = 15) :
    frame_invariant (mk_full_command cmd) := by
  refine ⟨by simp [mk_full_command, HEAD, SUBMIT_TYPE, TAIL, h],
    by simp [mk_full_command, HEAD, SUBMIT_TYPE], ?_, ?_⟩
  · show (mk_full_command cmd).getD 18 0 = 0xAB
    simp only [mk_full_command, HEAD, SUBMIT_TYPE, TAIL, List.cons_append,
      List.nil_append, List.getD_cons_succ, List.append_assoc]
    rw [List.getD_append_right _ _ _ _ (by simp [h])]
    simp [h]
  · show (mk_full_command cmd).getD 17 0 = _
    simp only [mk_full_command, HEAD, SUBMIT_TYPE, TAIL, List.cons_append,
      List.nil_append, List.getD_cons_succ, List.drop_succ_cons,
      List.drop_zero, List.append_assoc]
    rw [List.getD_append_right _ _ _ _ (by simp [h]), ← h, List.take_left]
    simp [h]

lemma parse_error_ne_nil {out : Bytes} {cc : Command} {rt : ResponseType}
    {e : ReadErr} (h : parse_read_response out cc rt = .error e)
    (hne : e ≠ .incompleteRead) : out ≠ [] := by
  intro h0
  have := parse_error_length h hne
  rw [h0] at this
  simp at this

lemma parse_ok_ne_nil {out : Bytes} {cc : Command} {rt : ResponseType}
    {r : RawReadResponse} (h : parse_read_response out cc rt = .ok r) :
    out ≠ [] := by
  intro h0
  obtain ⟨hl, -, -⟩ := parse_ok_iff.mp h
  rw [h0] at hl
  simp at hl

lemma is_retryable_ne_incomplete {e : ReadErr} (hr : is_retryable e = true) :
    e ≠ .incompleteRead := by
  intro h0
  rw [h0] at hr
  simp [is_retryable] at hr

lemma read_until_go_step_ok {cc : Command} {rt : ResponseType}
    (maxLoopCount n : Nat) (evs : List Event) (out : Bytes)
    (rest : List Bytes) {r : RawReadResponse}
    (h : parse_read_response out cc rt = .ok r) :
    read_until_go cc rt maxLoopCount n evs (out :: rest) =
      (.ok out, ⟨rest, evs ++ [.read out]⟩) := by
  simp only [read_until_go]
  rw [if_neg (parse_ok_ne_nil h), h]

lemma read_until_go_step_fatal {cc : Command} {rt : ResponseType}
    (maxLoopCount n : Nat) (evs : List Event) (out : Bytes)
    (rest : List Bytes) {e : ReadErr}
    (h : parse_read_response out cc rt = .error e)
    (hr : is_retryable e = false) (hne : e ≠ .incompleteRead) :
    read_until_go cc rt maxLoopCount n evs (out :: rest) =
      (.error e, ⟨rest, evs ++ [.read out]⟩) := by
  simp only [read_until_go]
  rw [if_neg (parse_error_ne_nil h hne), h]
  simp [hr]

lemma read_until_go_step_retry {cc : Command} {rt : ResponseType}
    {maxLoopCount n : Nat} (evs : List Event) (out : Bytes)
    (rest : List Bytes) {e : ReadErr}
    (h : parse_read_response out cc rt = .error e)
    (hr : is_retryable e = true) (hlt : n < maxLoopCount) :
    read_until_go cc rt maxLoopCount n evs (out :: rest) =
      read_until_go cc rt maxLoopCount (n + 1) (evs ++ [.read out]) rest := by
  simp only [read_until_go]
  rw [if_neg (parse_error_ne_nil h (is_retryable_ne_incomplete hr)), h]
  simp [hr, Nat.not_le.mpr hlt]

lemma read_until_go_step_bound {cc : Command} {rt : ResponseType}
    {maxLoopCount n : Nat} (evs : List Event) (out : Bytes)
    (rest : List Bytes) {e : ReadErr}
    (h : parse_read_response out cc rt = .error e)
    (hr : is_retryable e = true) (hle : maxLoopCount ≤ n) :
    read_until_go cc rt maxLoopCount n evs (out :: rest) =
      (.error (.missingResponse n cc.value), ⟨rest, evs ++ [.read out]⟩) := by
  simp only [read_until_go]
  rw [if_neg (parse_error_ne_nil h (is_retryable_ne_incomplete hr)), h]
  simp [hr, hle]

lemma query_frame_mismatch {q : Bytes} {r : RawReadResponse}
    (h : parse_read_response q Command.query ResponseType.queryResponse = .ok r)
    (cc : Command) :
    parse_read_response q cc ResponseType.generalResponse =
      .error (.incorrectCommand ResponseType.generalResponse.value
        ResponseType.queryResponse.value) := by
  obtain ⟨hl, -, hv⟩ := parse_ok_iff.mp h
  obtain ⟨hh, ht, hc, hcmd⟩ := verify_none_fields hv
  simp only [mk_raw] at hh ht hc hcmd
  unfold parse_read_response
  rw [if_neg (by omega)]
  have hv2 : verify_read_response (mk_raw q cc ResponseType.generalResponse) =
      some (.incorrectCommand ResponseType.generalResponse.value
        ResponseType.queryResponse.value) := by
    unfold verify_read_response
    simp only [mk_raw]
    rw [if_neg (not_not.mpr hh), if_neg (not_not.mpr ht),
      if_neg (not_not.mpr hc), if_pos (by rw [hcmd]; decide), hcmd]
  rw [hv2]

/-! Claim theorems. -/

/-- C5: `_verify_read_response` runs its checks in the fixed order head,
tail, checksum, response class, command code, returning the first failure
(each conjunct fixes only the checks before it, so a failure of an earlier
check is reported whatever the later fields hold), and when the expected
response type is the query response the command-code check is skipped
entirely, so the frame is never rejected for its `payload[0]` value. -/
theorem c5_verify_check_order (r : RawReadResponse) :
    (r.head ≠ HEAD → verify_read_response r = some .incorrectWrapper) ∧
    (r.head = HEAD → r.tail ≠ TAIL →
      verify_read_response r = some .incorrectWrapper) ∧
    (r.head = HEAD → r.tail = TAIL → r.checksum ≠ calc_checksum r.payload →
      verify_read_response r =
        some (.checksumFailed r.checksum (calc_checksum r.payload))) ∧
    (r.head = HEAD → r.tail = TAIL → r.checksum = calc_checksum r.payload →
      r.cmd_id ≠ r.expected_response_type.value →
      verify_read_response r =
        some (.incorrectCommand r.expected_response_type.value r.cmd_id)) ∧
    (r.head = HEAD → r.tail = TAIL → r.checksum = calc_checksum r.payload →
      r.cmd_id = r.expected_response_type.value →
      r.expected_response_type = ResponseType.queryResponse →
      verify_read_response r = none) ∧
    (r.head = HEAD → r.tail = TAIL → r.checksum = calc_checksum r.payload →
      r.cmd_id = r.expected_response_type.value →
      r.expected_response_type ≠ ResponseType.queryResponse →
      (r.payload.take 1 ≠ r.expected_command_code.value →
        verify_read_response r = some (.incorrectCommandCode
          r.expected_command_code.value (r.payload.take 1))) ∧
      (r.payload.take 1 = r.expected_command_code.value →
        verify_read_response r = none)) := by
  refine ⟨?_, ?_, ?_, ?_, ?_, ?_⟩ <;> intros <;>
    simp_all [verify_read_response]

/-- Witness for C5: a frame with a wrong head byte is rejected as a wrapper
failure whatever its other fields hold, and a query-response frame whose
`payload[0]` (here 0x63) differs from the expected command code (0x04)
still verifies. -/
theorem c5_verify_check_order_witness :
    verify_read_response
      { head := [0x00], cmd_id := [0xC5], payload := [0x04, 0, 0, 0, 0, 0],
        device_id := [0, 0], checksum := 4, tail := [0xAB],
        expected_command_code := Command.query,
        expected_response_type := ResponseType.generalResponse } =
      some .incorrectWrapper ∧
    verify_read_response
      { head := [0xAA], cmd_id := [0xC0], payload := [0x63, 0, 0, 0, 0, 0],
        device_id := [0, 0], checksum := 0x63, tail := [0xAB],
        expected_command_code := Command.query,
        expected_response_type := ResponseType.queryResponse } = none := by
  constructor
  · exact (c5_verify_check_order _).1 (by decide)
  · exact (c5_verify_check_order _).2.2.2.2.1 (by decide) (by decide)
      (by decide) (by decide) rfl

/-- C10: parsing a raw response is lossless: whenever `_parse_read_response`
succeeds, concatenating head, command id, payload, checksum byte and tail
reproduces the input, and the parsed device id is the last 2 bytes of the
6-byte payload. -/
theorem c10_parse_lossless (data : Bytes) (cc : Command) (rt : ResponseType)
    (r : RawReadResponse) (h : parse_read_response data cc rt = .ok r) :
    r.head ++ r.cmd_id ++ r.payload ++ [r.checksum] ++ r.tail = data ∧
      r.device_id = r.payload.drop 4 := by
  obtain ⟨hl, rfl, -⟩ := parse_ok_iff.mp h
  obtain ⟨b0, b1, b2, b3, b4, b5, b6, b7, b8, b9, rfl⟩ := length_ten_eq hl
  constructor <;> rfl

/-- C6: for every parsed query response, `pm25` is the little-endian 16-bit
integer formed by the first two payload bytes divided by 10, and `pm10` the
little-endian 16-bit integer formed by the next two payload bytes divided
by 10 (payload bytes are `data[2:8]`). -/
theorem c6_pm_little_endian (data : Bytes) (q : QueryResponse)
    (b0 b1 b2 b3 b4 b5 : Nat)
    (h : parse_query_response data = .ok q)
    (hp : (data.drop 2).take 6 = [b0, b1, b2, b3, b4, b5]) :
    q.pm25 = ((b0 : ℚ) + 256 * (b1 : ℚ)) / 10 ∧
      q.pm10 = ((b2 : ℚ) + 256 * (b3 : ℚ)) / 10 := by
  unfold parse_query_response at h
  rcases hpr : parse_read_response data Command.query
      ResponseType.queryResponse with e | raw <;> rw [hpr] at h
  · simp at h
  · obtain ⟨-, hre, -⟩ := parse_ok_iff.mp hpr
    have hpay : raw.payload = [b0, b1, b2, b3, b4, b5] := by
      rw [hre]; exact hp
    simp only [Except.ok.injEq] at h
    subst h
    constructor
    · show (from_bytes_le (raw.payload.take 2) : ℚ) / 10 = _
      rw [hpay]
      simp [from_bytes_le]
    · show (from_bytes_le ((raw.payload.drop 2).take 2) : ℚ) / 10 = _
      rw [hpay]
      simp [from_bytes_le]

/-- Witness for C6: the worked example of the spec, payload
`E5 10 BF 14 01 01`,
yields `pm25 = 432.5` and `pm10 = 531.1`. -/
theorem c6_pm_little_endian_witness :
    ∃ q, parse_query_response example_query_frame = .ok q ∧
      q.pm25 = 432.5 ∧ q.pm10 = 531.1 := by
  obtain ⟨q, hq⟩ : ∃ q, parse_query_response example_query_frame = .ok q :=
    ⟨_, rfl⟩
  have h := c6_pm_little_endian example_query_frame q
    0xE5 0x10 0xBF 0x14 0x01 0x01 hq (by rfl)
  refine ⟨q, hq, ?_, ?_⟩
  · rw [h.1]; norm_num
  · rw [h.2]; norm_num

/-- C9: every frame written by a request-sending public method, given
2-byte device ids and valid arguments, satisfies the frame invariant:
exactly 19 bytes, starting `AA B4`, ending `AB`, with byte 17 the sum of
bytes 2 through 16 modulo 256; and the method performs exactly that one
write. -/
theorem c9_written_frames (st : SerialState) (did : Bytes)
    (hdid : did.length = 2) :
    (∃ f, request_data did st = (.ok (), ser_write f st) ∧
      frame_invariant f) ∧
    (∃ f, request_reporting_mode did st = (.ok (), ser_write f st) ∧
      frame_invariant f) ∧
    (∀ mode, ∃ f, set_reporting_mode mode did st = (.ok (), ser_write f st) ∧
      frame_invariant f) ∧
    (∃ f, request_sleep_state did st = (.ok (), ser_write f st) ∧
      frame_invariant f) ∧
    (∀ s, ∃ f, set_sleep_state s did st = (.ok (), ser_write f st) ∧
      frame_invariant f) ∧
    (∀ nid : Bytes, nid.length = 2 →
      ∃ f, set_device_id nid did st = (.ok (), ser_write f st) ∧
        frame_invariant f) ∧
    (∃ f, request_working_period did st = (.ok (), ser_write f st) ∧
      frame_invariant f) ∧
    (∀ wp : Int, 0 ≤ wp → wp ≤ 30 →
      ∃ f, set_working_period wp did st = (.ok (), ser_write f st) ∧
        frame_invariant f) ∧
    (∃ f, request_firmware_version did st = (.ok (), ser_write f st) ∧
      frame_invariant f) := by
  refine ⟨?_, ?_, ?_, ?_, ?_, ?_, ?_, ?_, ?_⟩
  · exact ⟨_, send_command_eq _ _ (by simp [Command.value, hdid]),
      mk_full_command_invariant _ (by simp [Command.value, hdid])⟩
  · exact ⟨_, send_command_eq _ _
      (by simp [Command.value, OperationType.value, ReportingMode.value, hdid]),
      mk_full_command_invariant _
      (by simp [Command.value, OperationType.value, ReportingMode.value, hdid])⟩
  · intro mode
    exact ⟨_, send_command_eq _ _
      (by simp [Command.value, OperationType.value, hdid]),
      mk_full_command_invariant _
      (by simp [Command.value, OperationType.value, hdid])⟩
  · exact ⟨_, send_command_eq _ _
      (by simp [Command.value, OperationType.value, hdid]),
      mk_full_command_invariant _
      (by simp [Command.value, OperationType.value, hdid])⟩
  · intro s
    exact ⟨_, send_command_eq _ _
      (by simp [Command.value, OperationType.value, hdid]),
      mk_full_command_invariant _
      (by simp [Command.value, OperationType.value, hdid])⟩
  · intro nid hnid
    rw [set_device_id, if_neg (by simp [hdid, hnid])]
    exact ⟨_, send_command_eq _ _ (by simp [Command.value, hdid, hnid]),
      mk_full_command_invariant _ (by simp [Command.value, hdid, hnid])⟩
  · exact ⟨_, send_command_eq _ _
      (by simp [Command.value, OperationType.value, hdid]),
      mk_full_command_invariant _
      (by simp [Command.value, OperationType.value, hdid])⟩
  · intro wp h0 h30
    rw [set_working_period, if_neg (by omega)]
    exact ⟨_, send_command_eq _ _
      (by simp [Command.value, OperationType.value, hdid]),
      mk_full_command_invariant _
      (by simp [Command.value, OperationType.value, hdid])⟩
  · exact ⟨_, send_command_eq _ _ (by simp [Command.value, hdid]),
      mk_full_command_invariant _ (by simp [Command.value, hdid])⟩

/-- Witness for C9: the frame invariant instantiated on the broadcast id,
including the hypothesis-bearing conjuncts for `set_device_id` (a concrete
2-byte id) and `set_working_period` (a concrete in-range value). -/
theorem c9_written_frames_witness :
    (∃ f, request_data ALL_SENSOR_ID ⟨[], []⟩ =
      (.ok (), ser_write f ⟨[], []⟩) ∧ frame_invariant f) ∧
    (∃ f, set_device_id [0xBB, 0xAA] ALL_SENSOR_ID ⟨[], []⟩ =
      (.ok (), ser_write f ⟨[], []⟩) ∧ frame_invariant f) ∧
    (∃ f, set_working_period 7 ALL_SENSOR_ID ⟨[], []⟩ =
      (.ok (), ser_write f ⟨[], []⟩) ∧ frame_invariant f) := by
  have h := c9_written_frames ⟨[], []⟩ ALL_SENSOR_ID (by decide)
  exact ⟨h.1, h.2.2.2.2.2.1 [0xBB, 0xAA] (by decide),
    h.2.2.2.2.2.2.2.1 7 (by decide) (by decide)⟩

/-- C7: `set_working_period` with 0 or 30 builds and sends a command, while
any working period outside 0..30 and any device id that is not exactly
2 bytes fail with the invalid-argument error before anything is written
(the transport state is returned unchanged). -/
theorem c7_argument_checks :
    (∀ (did : Bytes) (st : SerialState), did.length = 2 →
      ∃ f, set_working_period 0 did st = (.ok (), ser_write f st)) ∧
    (∀ (did : Bytes) (st : SerialState), did.length = 2 →
      ∃ f, set_working_period 30 did st = (.ok (), ser_write f st)) ∧
    (∀ (wp : Int) (did : Bytes) (st : SerialState), wp < 0 ∨ 30 < wp →
      set_working_period wp did st = (.error .attributeError, st)) ∧
    (∀ (nid tid : Bytes) (st : SerialState), nid.length ≠ 2 →
      set_device_id nid tid st = (.error .attributeError, st)) := by
  refine ⟨?_, ?_, ?_, ?_⟩
  · intro did st hdid
    rw [set_working_period, if_neg (by omega)]
    exact ⟨_, send_command_eq _ _
      (by simp [Command.value, OperationType.value, hdid])⟩
  · intro did st hdid
    rw [set_working_period, if_neg (by omega)]
    exact ⟨_, send_command_eq _ _
      (by simp [Command.value, OperationType.value, hdid])⟩
  · intro wp did st hwp
    rw [set_working_period, if_pos (by omega)]
  · intro nid tid st hnid
    rw [set_device_id, if_pos (Or.inl hnid)]

/-- Witness for C7: concrete in-range values 0 and 30 send, out-of-range
values -1 and 31 and a 3-byte device id fail without writing. -/
theorem c7_argument_checks_witness :
    (∃ f, set_working_period 0 ALL_SENSOR_ID ⟨[], []⟩ =
      (.ok (), ser_write f ⟨[], []⟩)) ∧
    (∃ f, set_working_period 30 ALL_SENSOR_ID ⟨[], []⟩ =
      (.ok (), ser_write f ⟨[], []⟩)) ∧
    set_working_period (-1) ALL_SENSOR_ID ⟨[], []⟩ =
      (.error .attributeError, ⟨[], []⟩) ∧
    set_working_period 31 ALL_SENSOR_ID ⟨[], []⟩ =
      (.error .attributeError, ⟨[], []⟩) ∧
    set_device_id [0xBB, 0xAA, 0x42] ALL_SENSOR_ID ⟨[], []⟩ =
      (.error .attributeError, ⟨[], []⟩) := by
  exact ⟨c7_argument_checks.1 ALL_SENSOR_ID ⟨[], []⟩ (by decide),
    c7_argument_checks.2.1 ALL_SENSOR_ID ⟨[], []⟩ (by decide),
    c7_argument_checks.2.2.1 (-1) ALL_SENSOR_ID ⟨[], []⟩ (by omega),
    c7_argument_checks.2.2.1 31 ALL_SENSOR_ID ⟨[], []⟩ (by omega),
    c7_argument_checks.2.2.2 [0xBB, 0xAA, 0x42] ALL_SENSOR_ID ⟨[], []⟩
      (by decide)⟩

/-- C1: inside `_read_until_response`, a checksum failure or a wrapper
(head/tail) failure is propagated to the caller immediately, leaving the
rest of the stream unread; an unexpected-command-code or
unexpected-response-class failure makes the loop skip the frame and read
again while under the bound, and raise `MissingResponse` once the bound is
reached. -/
theorem c1_matcher_error_policy (cc : Command) (rt : ResponseType)
    (maxLoopCount n : Nat) (out : Bytes) (rest : List Bytes)
    (evs : List Event) :
    (∀ exp act,
      parse_read_response out cc rt = .error (.checksumFailed exp act) →
      read_until_go cc rt maxLoopCount n evs (out :: rest) =
        (.error (.checksumFailed exp act), ⟨rest, evs ++ [.read out]⟩)) ∧
    (parse_read_response out cc rt = .error .incorrectWrapper →
      read_until_go cc rt maxLoopCount n evs (out :: rest) =
        (.error .incorrectWrapper, ⟨rest, evs ++ [.read out]⟩)) ∧
    (∀ e, parse_read_response out cc rt = .error e → is_retryable e = true →
      n < maxLoopCount →
      read_until_go cc rt maxLoopCount n evs (out :: rest) =
        read_until_go cc rt maxLoopCount (n + 1) (evs ++ [.read out]) rest) ∧
    (∀ e, parse_read_response out cc rt = .error e → is_retryable e = true →
      maxLoopCount ≤ n →
      read_until_go cc rt maxLoopCount n evs (out :: rest) =
        (.error (.missingResponse n cc.value),
          ⟨rest, evs ++ [.read out]⟩)) := by
  refine ⟨?_, ?_, ?_, ?_⟩
  · intro exp act h
    exact read_until_go_step_fatal _ _ _ _ _ h rfl (by simp)
  · intro h
    exact read_until_go_step_fatal _ _ _ _ _ h rfl (by simp)
  · intro e h hr hlt
    exact read_until_go_step_retry _ _ _ h hr hlt
  · intro e h hr hle
    exact read_until_go_step_bound _ _ _ h hr hle

/-- Witness for C1: a frame whose checksum byte is corrupt makes the
matcher fail immediately with the checksum error while the rest of the
stream stays unread. -/
theorem c1_matcher_error_policy_witness :
    read_until_go Command.query ResponseType.generalResponse
        default_max_loop_count 0 []
        [bad_checksum_frame, sleep_response_frame] =
      (.error (.checksumFailed 3 6),
        ⟨[sleep_response_frame], [.read bad_checksum_frame]⟩) :=
  (c1_matcher_error_policy Command.query ResponseType.generalResponse
    default_max_loop_count 0 bad_checksum_frame [sleep_response_frame] []).1
    3 6 (by rfl)

/-- C2 (counterexample): with `maxAttempts = 1` and a stream of exactly
`N = 1 ≥ maxAttempts` frames each failing with a wrong-response-class
mismatch, `_read_until_response` raises `IncompleteReadException`, not
`MissingResponse`: the bound check `loop_count >= max_loop_count` runs
before the increment, so `MissingResponse` needs `maxAttempts + 1` bad
frames. -/
theorem c2_counterexample :
    (read_until_response Command.setSleep ResponseType.generalResponse 1
        ⟨[example_query_frame], []⟩).1 = .error .incompleteRead ∧
    ∀ a ec, (read_until_response Command.setSleep ResponseType.generalResponse
        1 ⟨[example_query_frame], []⟩).1 ≠ .error (.missingResponse a ec) := by
  refine ⟨rfl, ?_⟩
  intro a ec h
  rw [show (read_until_response Command.setSleep ResponseType.generalResponse 1
    ⟨[example_query_frame], []⟩).1 = .error .incompleteRead from rfl] at h
  simp at h

lemma read_until_go_retryable_stream (cc : Command) (rt : ResponseType) :
    ∀ (k maxLoopCount n : Nat) (evs : List Event) (stream : List Bytes),
      maxLoopCount = n + k →
      (∀ c ∈ stream, ∃ e, parse_read_response c cc rt = .error e ∧
        is_retryable e = true) →
      k + 1 ≤ stream.length →
      read_until_go cc rt maxLoopCount n evs stream =
        (.error (.missingResponse maxLoopCount cc.value),
          ⟨stream.drop (k + 1),
            evs ++ (stream.take (k + 1)).map Event.read⟩) := by
  intro k
  induction k with
  | zero =>
    intro maxLoopCount n evs stream hm hall hlen
    rcases stream with _ | ⟨out, rest⟩
    · simp at hlen
    · obtain ⟨e, he, hr⟩ := hall out (by simp)
      rw [read_until_go_step_bound _ _ _ he hr (by omega)]
      simp [hm]
  | succ k ih =>
    intro maxLoopCount n evs stream hm hall hlen
    rcases stream with _ | ⟨out, rest⟩
    · simp at hlen
    · obtain ⟨e, he, hr⟩ := hall out (by simp)
      rw [read_until_go_step_retry _ _ _ he hr (by omega)]
      rw [ih maxLoopCount (n + 1) (evs ++ [Event.read out]) rest (by omega)
        (fun c hc => hall c (by simp [hc])) (by simpa using hlen)]
      simp

/-- C2 (amended): for every stream of at least `maxAttempts + 1` consecutive
frames that each fail verification with a wrong-command-code or
wrong-response-class mismatch, `_read_until_response` fails with
`MissingResponse` carrying `attempts = maxAttempts`, after `maxAttempts + 1`
reads.  (With exactly `maxAttempts` such frames it raises
`IncompleteReadException` instead; see the counterexample.) -/
theorem c2_amended_missing_response (cc : Command) (rt : ResponseType)
    (maxLoopCount : Nat) (st : SerialState)
    (hall : ∀ c ∈ st.stream, ∃ e, parse_read_response c cc rt = .error e ∧
      is_retryable e = true)
    (hlen : maxLoopCount + 1 ≤ st.stream.length) :
    read_until_response cc rt maxLoopCount st =
      (.error (.missingResponse maxLoopCount cc.value),
        ⟨st.stream.drop (maxLoopCount + 1),
          st.events ++ (st.stream.take (maxLoopCount + 1)).map Event.read⟩) :=
  read_until_go_retryable_stream cc rt maxLoopCount maxLoopCount 0 st.events
    st.stream (by omega) hall hlen

/-- Witness for C2 (amended): two wrong-class frames with `maxAttempts = 1`
produce `MissingResponse` with `attempts = 1` after two reads. -/
theorem c2_amended_missing_response_witness :
    read_until_response Command.setSleep ResponseType.generalResponse 1
        ⟨[example_query_frame, example_query_frame], []⟩ =
      (.error (.missingResponse 1 Command.setSleep.value),
        ⟨[], [.read example_query_frame, .read example_query_frame]⟩) := by
  have h := c2_amended_missing_response Command.setSleep
    ResponseType.generalResponse 1 ⟨[example_query_frame, example_query_frame], []⟩
    (by intro c hc; simp only [List.mem_cons, List.not_mem_nil, or_false] at hc
        rcases hc with rfl | rfl <;> exact ⟨_, rfl, rfl⟩)
    (by decide)
  simpa using h

/-- C8: three well-formed unsolicited query-response frames followed by the
awaited well-formed general-response frame make `_read_until_response`
return the general-response frame after consuming exactly those four
frames, whenever `maxAttempts ≥ 3`. -/
theorem c8_matcher_skips_unsolicited (cc : Command) (maxLoopCount : Nat)
    (q1 q2 q3 g : Bytes) (rest : List Bytes) (evs : List Event)
    (r1 r2 r3 rg : RawReadResponse)
    (h1 : parse_read_response q1 Command.query ResponseType.queryResponse =
      .ok r1)
    (h2 : parse_read_response q2 Command.query ResponseType.queryResponse =
      .ok r2)
    (h3 : parse_read_response q3 Command.query ResponseType.queryResponse =
      .ok r3)
    (hg : parse_read_response g cc ResponseType.generalResponse = .ok rg)
    (hmax : 3 ≤ maxLoopCount) :
    read_until_response cc ResponseType.generalResponse maxLoopCount
        ⟨q1 :: q2 :: q3 :: g :: rest, evs⟩ =
      (.ok g, ⟨rest, evs ++ [.read q1, .read q2, .read q3, .read g]⟩) := by
  unfold read_until_response
  rw [read_until_go_step_retry _ _ _ (query_frame_mismatch h1 cc) rfl
      (by omega),
    read_until_go_step_retry _ _ _ (query_frame_mismatch h2 cc) rfl
      (by omega),
    read_until_go_step_retry _ _ _ (query_frame_mismatch h3 cc) rfl
      (by omega),
    read_until_go_step_ok _ _ _ _ _ hg]
  simp

/-- Witness for C8: three concrete unsolicited query frames before a
concrete sleep response; the matcher returns the sleep response having read
all four frames. -/
theorem c8_matcher_skips_unsolicited_witness :
    read_until_response Command.setSleep ResponseType.generalResponse
        default_max_loop_count
        ⟨[example_query_frame, example_query_frame, example_query_frame,
          sleep_response_frame], []⟩ =
      (.ok sleep_response_frame,
        ⟨[], [.read example_query_frame, .read example_query_frame,
          .read example_query_frame, .read sleep_response_frame]⟩) := by
  have h := c8_matcher_skips_unsolicited Command.setSleep
    default_max_loop_count example_query_frame example_query_frame
    example_query_frame sleep_response_frame [] [] _ _ _ _
    rfl rfl rfl rfl (by decide)
  simpa using h

/-- C3 (counterexample): `safe_wake` is not a single best-effort
10-byte read that ignores all errors: on a stream holding an unsolicited
query frame before the sleep response it performs two reads, and on a
stream whose first frame has a corrupt checksum the checksum error
propagates out of `safe_wake` instead of being ignored. -/
theorem c3_counterexample :
    (safe_wake ALL_SENSOR_ID default_max_loop_count
        ⟨[example_query_frame, sleep_response_frame], []⟩).2.events.countP
      is_read_event = 2 ∧
    (safe_wake ALL_SENSOR_ID default_max_loop_count
        ⟨[bad_checksum_frame], []⟩).1 = .error (.checksumFailed 3 6) :=
  ⟨rfl, rfl⟩

/-- C3 (amended): `safe_wake` sends a WAKE sleep command and then performs
one `_read_until_response` scan for the sleep response — which may consume
several frames, up to the configured bound — discarding its result and
swallowing only `IncompleteReadException`; any other protocol error
propagates. -/
theorem c3_amended_safe_wake (did : Bytes) (maxLoopCount : Nat)
    (st : SerialState) (hdid : did.length = 2) :
    safe_wake did maxLoopCount st =
      (match read_until_response Command.setSleep ResponseType.generalResponse
          maxLoopCount
          (ser_write (mk_full_command (Command.setSleep.value ++
            OperationType.setMode.value ++ SleepState.wake.value ++
            List.replicate 10 0 ++ did)) st) with
       | (.ok _, st2) => (.ok (), st2)
       | (.error .incompleteRead, st2) => (.ok (), st2)
       | (.error e, st2) => (.error e, st2)) := by
  unfold safe_wake wake set_sleep_state
  rw [send_command_eq _ _ (by simp [Command.value, OperationType.value, hdid])]

/-- Witness for C3 (amended): on an empty stream the wake frame is written,
one empty read happens, and the resulting incomplete-read error is
swallowed. -/
theorem c3_amended_safe_wake_witness :
    safe_wake ALL_SENSOR_ID 30 ⟨[], []⟩ =
      (.ok (), ⟨[], [.write (mk_full_command (Command.setSleep.value ++
        OperationType.setMode.value ++ SleepState.wake.value ++
        List.replicate 10 0 ++ ALL_SENSOR_ID)), .read []]⟩) := by
  have h := c3_amended_safe_wake ALL_SENSOR_ID 30 ⟨[], []⟩ (by decide)
  exact h.trans (by rfl)

/-- C4 (counterexample): `set_active_mode` performs exactly one transport
operation — the command write: it neither closes nor reopens the transport
and performs no confirmation read-back, even with a frame waiting in the
stream. -/
theorem c4_counterexample :
    (set_active_mode ⟨[sleep_response_frame], []⟩).2.events.countP
        is_read_event = 0 ∧
    (set_active_mode ⟨[sleep_response_frame], []⟩).2.events.countP
        is_open_close_event = 0 ∧
    (set_active_mode ⟨[sleep_response_frame], []⟩).2.events.length = 1 ∧
    (set_active_mode ⟨[sleep_response_frame], []⟩).1 = .ok () :=
  ⟨rfl, rfl, rfl, rfl⟩

/-- C4 (amended): `_set_reporting_mode` only builds and sends the
SET_REPORTING_MODE set command — it performs no transport close/reopen —
and `set_active_mode` and `set_query_mode` call it directly with no
confirmation read-back, so the entire effect of each is the single command
write. -/
theorem c4_amended_set_reporting_mode (mode : ReportingMode) (did : Bytes)
    (st : SerialState) (hdid : did.length = 2) :
    set_reporting_mode mode did st =
      (.ok (), ser_write (mk_full_command (Command.setReportingMode.value ++
        OperationType.setMode.value ++ mode.value ++ List.replicate 10 0 ++
        did)) st) ∧
    set_active_mode st =
      (.ok (), ser_write (mk_full_command (Command.setReportingMode.value ++
        OperationType.setMode.value ++ ReportingMode.active.value ++
        List.replicate 10 0 ++ ALL_SENSOR_ID)) st) ∧
    set_query_mode st =
      (.ok (), ser_write (mk_full_command (Command.setReportingMode.value ++
        OperationType.setMode.value ++ ReportingMode.querying.value ++
        List.replicate 10 0 ++ ALL_SENSOR_ID)) st) := by
  refine ⟨?_, ?_, ?_⟩
  · exact send_command_eq _ _
      (by simp [Command.value, OperationType.value, hdid])
  · exact send_command_eq (Command.setReportingMode.value ++
      OperationType.setMode.value ++ ReportingMode.active.value ++
      List.replicate 10 0 ++ ALL_SENSOR_ID) st (by decide)
  · exact send_command_eq (Command.setReportingMode.value ++
      OperationType.setMode.value ++ ReportingMode.querying.value ++
      List.replicate 10 0 ++ ALL_SENSOR_ID) st (by decide)

/-- Witness for C4 (amended): the set-querying-mode command for a concrete
2-byte device id results in exactly one write of the assembled frame. -/
theorem c4_amended_set_reporting_mode_witness :
    set_reporting_mode ReportingMode.querying [0x12, 0x23] ⟨[], []⟩ =
      (.ok (), ⟨[], [.write [0xAA, 0xB4, 0x02, 0x01, 0x01, 0x00, 0x00, 0x00,
        0x00, 0x00, 0x00, 0x00, 0x00, 0x00, 0x00, 0x12, 0x23, 0x39,
        0xAB]]⟩) := by
  have h := (c4_amended_set_reporting_mode ReportingMode.querying
    [0x12, 0x23] ⟨[], []⟩ (by decide)).1
  exact h.trans (by rfl)

/-- Witness for C10: the concatenation property evaluated on a concrete
well-formed sleep response frame. -/
theorem c10_parse_lossless_witness :
    ∃ r, parse_read_response sleep_response_frame Command.setSleep
        ResponseType.generalResponse = .ok r ∧
      r.head ++ r.cmd_id ++ r.payload ++ [r.checksum] ++ r.tail =
        sleep_response_frame ∧
      r.device_id = r.payload.drop 4 := by
  obtain ⟨r, hr⟩ : ∃ r, parse_read_response sleep_response_frame
      Command.setSleep ResponseType.generalResponse = .ok r := ⟨_, rfl⟩
  exact ⟨r, hr, c10_parse_lossless _ _ _ _ hr⟩

end Sds011
